import Mathlib

/-!
Shallow embedding of the EduMentor AI orchestration core
(src/main.py, src/memory_bank.py, src/session_manager.py,
src/observability.py, src/tools/knowledge_base_tool.py).

Conventions of the embedding:
* Python dicts that the code iterates or mutates are association lists that
  keep insertion order (`pyUpsert` is `d[k] = v`).
* File persistence (`_save_memory`, `_save_trace`) is abstracted away: the
  in-memory cache is the store, exactly as the code's reads go through the
  cache; save failures are caught by the code and change nothing observable.
* `await`ed completion-service and agent calls are inputs of type
  `Except String String`: `.error e` is a raised exception whose `str(e)`
  is `e`; `.ok t` is the returned text.
* Clock readings (`time.time()`, `datetime.now().isoformat()`) are passed
  in explicitly; `time.time()` floats are modelled as rationals.
-/

/-- Python `xs[-n:]` for `n > 0`: the last `n` elements (all of them when
`xs` is shorter). -/
def takeLast (n : Nat) (xs : List α) : List α := xs.drop (xs.length - n)

/-- Python `sub in s` substring test. -/
def pyContains (s sub : String) : Bool := decide (sub.data <:+: s.data)

/-- Python `s.startswith(pre)`. -/
def pyStartsWith (s pre : String) : Bool := decide (pre.data <+: s.data)

/-- Python `s.lower()`, character by character. -/
def pyLower (s : String) : String := String.mk (s.data.map Char.toLower)

/-- Accumulating splitter behind `pySplitWs`; `acc` holds the current
word's characters in reverse. -/
def splitWsAux : List Char → List Char → List String
  | [], acc => if acc.isEmpty then [] else [String.mk acc.reverse]
  | c :: cs, acc =>
    if c.isWhitespace then
      (if acc.isEmpty then [] else [String.mk acc.reverse]) ++ splitWsAux cs []
    else splitWsAux cs (c :: acc)

/-- Python `s.split()`: split on whitespace runs, no empty pieces. -/
def pySplitWs (s : String) : List String := splitWsAux s.data []

/-- Python `sep.join(xs)`. -/
def pyJoin (sep : String) : List String → String
  | [] => ""
  | [x] => x
  | x :: y :: xs => x ++ sep ++ pyJoin sep (y :: xs)

/-- Python dict assignment `d[k] = v`: replace in place if the key exists
(keeping its position), otherwise append. -/
def pyUpsert [BEq α] (k : α) (v : β) : List (α × β) → List (α × β)
  | [] => [(k, v)]
  | (k₁, v₁) :: rest => if k == k₁ then (k, v) :: rest else (k₁, v₁) :: pyUpsert k v rest

/-- Python `int(q)` for the non-negative rationals the code extracts with
its `retry in (\d+(\.\d+)?)s` regular expression (truncation = floor there). -/
def pyFloatInt (q : ℚ) : ℤ := ⌊q⌋

/-- A Python value as stored in metadata/tag dictionaries of the
observability layer. -/
inductive PyVal where
  | str : String → PyVal
  | num : ℚ → PyVal
  | bool : Bool → PyVal
deriving DecidableEq, Repr

/-! ## Memory Bank (src/memory_bank.py) -/

/-- One entry of `memory["interactions"]` (memory_bank.py:117-123). -/
structure Interaction where
  timestamp : String
  query : String
  response_summary : String
  intent : String
  topic : Option String
deriving DecidableEq, Repr

/-- One value of `memory["topics_studied"]` (memory_bank.py:134-140).
`last_seen` is absent until the first `add_interaction` sets it. -/
structure TopicStat where
  first_seen : String
  count : Nat
  last_seen : Option String
deriving DecidableEq, Repr

/-- `memory["profile"]` (memory_bank.py:79-85). -/
structure Profile where
  level : String
  learning_style : String
  strengths : List String
  gaps : List String
  interests : List String
deriving DecidableEq, Repr

/-- `memory["preferences"]` (memory_bank.py:89-92). -/
structure Preferences where
  explanation_detail : String
  practice_difficulty : String
deriving DecidableEq, Repr

/-- One student's memory record (memory_bank.py:76-94).
`performance_history` entries are opaque here: no modelled operation reads
or writes them. -/
structure Memory where
  student_id : String
  created_at : String
  profile : Profile
  interactions : List Interaction
  topics_studied : List (String × TopicStat)
  performance_history : List PyVal
  preferences : Preferences
  context_summary : String
deriving DecidableEq, Repr

/-- `MemoryBank._init_memory` (memory_bank.py:74-97). -/
def init_memory (student_id now : String) : Memory :=
  { student_id := student_id
    created_at := now
    profile := { level := "intermediate", learning_style := "visual",
                 strengths := [], gaps := [], interests := [] }
    interactions := []
    topics_studied := []
    performance_history := []
    preferences := { explanation_detail := "medium", practice_difficulty := "medium" }
    context_summary := "" }

/-- The keyword table of `MemoryBank._extract_topic` (memory_bank.py:253-259),
in the source's dict order. -/
def topicKeywords : List (String × List String) :=
  [("math", ["algebra", "geometry", "calculus", "equation", "formula", "math"]),
   ("science", ["biology", "chemistry", "physics", "photosynthesis", "atom", "force"]),
   ("english", ["grammar", "writing", "essay", "literature", "reading"]),
   ("history", ["history", "war", "ancient", "civilization"]),
   ("computer", ["programming", "code", "algorithm", "python", "java"])]

/-- `MemoryBank._extract_topic` (memory_bank.py:248-265). -/
def extract_topic (query : String) : Option String :=
  let ql := pyLower query
  (topicKeywords.find? (fun p => p.2.any (fun kw => pyContains ql kw))).map (·.1)

/-- The interaction record built by `add_interaction` (memory_bank.py:117-123). -/
def mkInteraction (query response intent now : String) : Interaction :=
  { timestamp := now
    query := query
    response_summary := response.take 200
    intent := intent
    topic := extract_topic query }

/-- The `topics_studied` update of `add_interaction` (memory_bank.py:131-140). -/
def bumpTopic (topics : List (String × TopicStat)) (topic now : String) :
    List (String × TopicStat) :=
  let ts := (topics.lookup topic).getD { first_seen := now, count := 0, last_seen := none }
  pyUpsert topic { ts with count := ts.count + 1, last_seen := some now } topics

/-- `MemoryBank.add_interaction` on one student's record
(memory_bank.py:99-142): append the new interaction, trim to the last 50
when the cap is exceeded, update topic counters.  Append and cap
enforcement are one step of this single function, as in the source. -/
def add_interaction (m : Memory) (query response intent now : String) : Memory :=
  let i := mkInteraction query response intent now
  let appended := m.interactions ++ [i]
  let capped := if appended.length > 50 then takeLast 50 appended else appended
  let topics := match i.topic with
    | none => m.topics_studied
    | some t => bumpTopic m.topics_studied t now
  { m with interactions := capped, topics_studied := topics }

/-- The context projection returned by `get_student_context`
(memory_bank.py:159-168). -/
structure StudentContext where
  level : String
  learning_style : String
  strengths : List String
  gaps : List String
  interests : List String
  recent_topics : List String
  total_interactions : Nat
  preferences : Preferences
deriving DecidableEq, Repr

/-- `MemoryBank.get_student_context` on one loaded record
(memory_bank.py:144-168).  Python's `list(set(...))` order is unspecified;
it is modelled with `List.dedup`, which no theorem below depends on. -/
def get_student_context_mem (m : Memory) : StudentContext :=
  let recent_topics := (takeLast 5 m.interactions).filterMap (·.topic)
  { level := m.profile.level
    learning_style := m.profile.learning_style
    strengths := m.profile.strengths
    gaps := m.profile.gaps
    interests := m.profile.interests
    recent_topics := recent_topics.dedup
    total_interactions := m.interactions.length
    preferences := m.preferences }

/-- The topic counting of `compact_old_memories` (memory_bank.py:286-290):
`defaultdict(int)` over the old interactions, keys in first-seen order. -/
def topicCounts (old : List Interaction) : List (String × Nat) :=
  old.foldl (fun acc i =>
    match i.topic with
    | none => acc
    | some t => pyUpsert t ((acc.lookup t).getD 0 + 1) acc) []

/-- Python `repr` of a `str → int` dict as interpolated by the f-string at
memory_bank.py:292, e.g. `\x7b'math': 1\x7d`. -/
def pyDictRepr (counts : List (String × Nat)) : String :=
  "\x7b" ++ String.intercalate ", "
    (counts.map (fun p => "'" ++ p.1 ++ "': " ++ toString p.2)) ++ "\x7d"

/-- `MemoryBank.compact_old_memories` on one student's record
(memory_bank.py:267-296). -/
def compact_old_memories (m : Memory) (threshold : Nat) : Memory :=
  if m.interactions.length < threshold then m
  else
    let recent := takeLast 50 m.interactions
    let old := m.interactions.take (m.interactions.length - 50)
    { m with
      context_summary := "Earlier sessions covered: " ++ pyDictRepr (topicCounts old)
      interactions := recent }

/-- The `MemoryBank` cache: the in-memory store keyed by student id
(memory_bank.py:32); files only mirror it. -/
abbrev MemoryCache := List (String × Memory)

/-- `MemoryBank._load_memory` (memory_bank.py:38-56): cache hit, else a new
record is initialized and saved. -/
def load_memory (bank : MemoryCache) (student_id now : String) : Memory × MemoryCache :=
  match bank.lookup student_id with
  | some m => (m, bank)
  | none =>
    let m := init_memory student_id now
    (m, pyUpsert student_id m bank)

/-- `MemoryBank.add_interaction` at the store level (memory_bank.py:99-142). -/
def mb_add_interaction (bank : MemoryCache) (student_id query response intent now : String) :
    MemoryCache :=
  let (m, bank₁) := load_memory bank student_id now
  pyUpsert student_id (add_interaction m query response intent now) bank₁

/-- `MemoryBank.get_student_context` at the store level
(memory_bank.py:144-168); reading an unseen student initializes its record. -/
def get_student_context (bank : MemoryCache) (student_id now : String) :
    StudentContext × MemoryCache :=
  let (m, bank₁) := load_memory bank student_id now
  (get_student_context_mem m, bank₁)

/-- The interaction log a student's record holds in the store ([] when the
student has no record yet, matching a fresh record's empty log). -/
def interactions_of (bank : MemoryCache) (student_id : String) : List Interaction :=
  ((bank.lookup student_id).map Memory.interactions).getD []

/-! ## Session Manager (src/session_manager.py) -/

/-- One message pair of `session["messages"]` (session_manager.py:103-107). -/
structure Message where
  timestamp : String
  user : String
  agent : String
deriving DecidableEq, Repr

/-- One session record (session_manager.py:41-49).  `state` and `context`
values are opaque Python values. -/
structure Session where
  session_id : String
  student_id : String
  created_at : String
  last_activity : String
  messages : List Message
  state : List (String × PyVal)
  context : List (String × PyVal)
deriving DecidableEq, Repr

/-- `SessionManager`'s three maps (session_manager.py:18-27). -/
structure SessionManager where
  sessions : List (String × Session)
  student_sessions : List (String × String)
  session_history : List (String × List Session)
deriving DecidableEq, Repr

/-- A freshly constructed `SessionManager()`. -/
def SessionManager.init : SessionManager := ⟨[], [], []⟩

/-- `SessionManager.create_session` (session_manager.py:29-54); the
`uuid.uuid4()` draw is the `new_id` input. -/
def create_session (mgr : SessionManager) (student_id new_id now : String) :
    String × SessionManager :=
  let s : Session :=
    { session_id := new_id, student_id := student_id, created_at := now,
      last_activity := now, messages := [], state := [], context := [] }
  (new_id,
   { mgr with
     sessions := pyUpsert new_id s mgr.sessions
     student_sessions := pyUpsert student_id new_id mgr.student_sessions })

/-- `SessionManager.get_current_session` (session_manager.py:68-78). -/
def get_current_session (mgr : SessionManager) (student_id : String) : Option String :=
  mgr.student_sessions.lookup student_id

/-- The get-or-create step of `OrchestratorAgent.start_learning_session`
(main.py:272-273): the student's current session id, else a new session. -/
def get_or_create_session (mgr : SessionManager) (student_id new_id now : String) :
    String × SessionManager :=
  match get_current_session mgr student_id with
  | some sid => (sid, mgr)
  | none => create_session mgr student_id new_id now

/-- `SessionManager.update_session` (session_manager.py:80-116): append the
message pair, refresh `last_activity`, trim to the last 50 messages; `false`
and no change when the session id is unknown. -/
def update_session (mgr : SessionManager) (session_id user_message agent_response now : String) :
    SessionManager × Bool :=
  match mgr.sessions.lookup session_id with
  | none => (mgr, false)
  | some s =>
    let msgs := s.messages ++ [⟨now, user_message, agent_response⟩]
    let msgs := if msgs.length > 50 then takeLast 50 msgs else msgs
    let s₁ := { s with messages := msgs, last_activity := now }
    ({ mgr with sessions := pyUpsert session_id s₁ mgr.sessions }, true)

/-- The message log a session holds in the store ([] when unknown). -/
def messages_of (mgr : SessionManager) (session_id : String) : List Message :=
  ((mgr.sessions.lookup session_id).map Session.messages).getD []

/-! ## Observability (src/observability.py) -/

/-- One trace event (observability.py:126-130). -/
structure TraceEvent where
  timestamp : ℚ
  event : String
  data : List (String × PyVal)
deriving DecidableEq, Repr

/-- One trace record (observability.py:96-103, 151-155).  `end_time`,
`duration` and `result` are absent until `end_trace` sets them. -/
structure Trace where
  trace_id : String
  operation : String
  start_time : ℚ
  metadata : List (String × PyVal)
  events : List TraceEvent
  status : String
  end_time : Option ℚ
  duration : Option ℚ
  result : Option (List (String × PyVal))
deriving DecidableEq, Repr

/-- One metric entry (observability.py:190-195). -/
structure MetricEntry where
  timestamp : String
  metric : String
  value : ℚ
  tags : List (String × PyVal)
deriving DecidableEq, Repr

/-- One performance entry (observability.py:238-244). -/
structure PerfEntry where
  timestamp : String
  component : String
  operation : String
  duration : ℚ
  success : Bool
deriving DecidableEq, Repr

/-- `ObservabilityManager`'s state (observability.py:34-41); logging itself
is write-only output and not modelled. -/
structure ObservabilityManager where
  traces : List (String × Trace)
  metrics : List (String × List MetricEntry)
  performance_data : List PerfEntry
deriving DecidableEq, Repr

/-- A freshly constructed `ObservabilityManager()`. -/
def ObservabilityManager.init : ObservabilityManager := ⟨[], [], []⟩

/-- `ObservabilityManager.start_trace` (observability.py:82-107). -/
def start_trace (o : ObservabilityManager) (trace_id operation : String)
    (metadata : List (String × PyVal)) (t : ℚ) : ObservabilityManager :=
  let tr : Trace :=
    { trace_id := trace_id, operation := operation, start_time := t,
      metadata := metadata, events := [], status := "in_progress",
      end_time := none, duration := none, result := none }
  { o with traces := pyUpsert trace_id tr o.traces }

/-- `ObservabilityManager.add_trace_event` (observability.py:109-132):
silently returns when the trace id is unknown, otherwise appends the event
regardless of the trace's status. -/
def add_trace_event (o : ObservabilityManager) (trace_id event_name : String)
    (data : List (String × PyVal)) (t : ℚ) : ObservabilityManager :=
  match o.traces.lookup trace_id with
  | none => o
  | some tr =>
    let tr₁ := { tr with events := tr.events ++ [⟨t, event_name, data⟩] }
    { o with traces := pyUpsert trace_id tr₁ o.traces }

/-- `ObservabilityManager.end_trace` (observability.py:134-163): silently
returns when the trace id is unknown, otherwise sets end time, duration,
status and result; the trace stays in `traces` (file persistence failures
are swallowed by `_save_trace`). -/
def end_trace (o : ObservabilityManager) (trace_id status : String)
    (result : Option (List (String × PyVal))) (t : ℚ) : ObservabilityManager :=
  match o.traces.lookup trace_id with
  | none => o
  | some tr =>
    let tr₁ :=
      { tr with end_time := some t, duration := some (t - tr.start_time),
                status := status, result := some (result.getD []) }
    { o with traces := pyUpsert trace_id tr₁ o.traces }

/-- `ObservabilityManager.record_metric` (observability.py:176-197). -/
def record_metric (o : ObservabilityManager) (metric_name : String) (value : ℚ)
    (tags : List (String × PyVal)) (now : String) : ObservabilityManager :=
  let entry : MetricEntry := ⟨now, metric_name, value, tags⟩
  { o with metrics :=
      pyUpsert metric_name ((o.metrics.lookup metric_name).getD [] ++ [entry]) o.metrics }

/-- `ObservabilityManager.log_performance` (observability.py:222-253). -/
def log_performance (o : ObservabilityManager) (component operation : String)
    (duration : ℚ) (success : Bool) (now : String) : ObservabilityManager :=
  let o₁ := { o with performance_data :=
      o.performance_data ++ [⟨now, component, operation, duration, success⟩] }
  record_metric o₁ ("performance." ++ component ++ "." ++ operation) duration
    [("success", PyVal.bool success)] now

/-! ## Knowledge Base (src/tools/knowledge_base_tool.py) -/

/-- `KnowledgeBaseTool._init_knowledge_base` (knowledge_base_tool.py:23-67),
in the source's dict order. -/
def knowledge_db : List (String × List (String × List String)) :=
  [("math",
    [("algebra",
      ["Linear equations use the form y = mx + b",
       "Quadratic equations use the form ax² + bx + c = 0",
       "The quadratic formula is x = (-b ± √(b²-4ac)) / 2a"]),
     ("geometry",
      ["Area of circle = πr²",
       "Pythagorean theorem: a² + b² = c²",
       "Volume of sphere = (4/3)πr³"])]),
   ("science",
    [("biology",
      ["Photosynthesis: 6CO₂ + 6H₂O → C₆H₁₂O₆ + 6O₂",
       "DNA has four bases: Adenine, Thymine, Guanine, Cytosine",
       "Cells are the basic unit of life"]),
     ("chemistry",
      ["Atoms consist of protons, neutrons, and electrons",
       "pH scale ranges from 0 (acidic) to 14 (basic)",
       "Chemical reactions conserve mass"]),
     ("physics",
      ["Newton's First Law: Objects in motion stay in motion",
       "F = ma (Force equals mass times acceleration)",
       "Energy cannot be created or destroyed"])]),
   ("language",
    [("grammar",
      ["Subject-verb agreement: singular subjects take singular verbs",
       "Commas separate items in a list",
       "Apostrophes show possession or contractions"]),
     ("writing",
      ["Thesis statement should be clear and arguable",
       "Use transition words to connect ideas",
       "Conclude by restating main points"])])]

/-- The fact selection of `KnowledgeBaseTool.retrieve`
(knowledge_base_tool.py:88-107): subject/topic keyword pass, then fuzzy
word pass with deduplication, truncated to `max_results`. -/
def retrieve_facts (query : String) (max_results : Nat) : List String :=
  let ql := pyLower query
  let pass1 := knowledge_db.foldl (fun acc st =>
    st.2.foldl (fun acc tf =>
      if pyContains ql st.1 || pyContains ql tf.1 then acc ++ tf.2.take 2 else acc) acc) []
  let words := (pySplitWs ql).filter (fun w => w.length > 3)
  let pass2 := knowledge_db.foldl (fun acc st =>
    st.2.foldl (fun acc tf =>
      tf.2.foldl (fun acc fact =>
        if words.any (fun w => pyContains (pyLower fact) w) && !(acc.contains fact)
        then acc ++ [fact] else acc) acc) acc) pass1
  pass2.take max_results

/-- The sentinel `retrieve` returns when nothing matches
(knowledge_base_tool.py:110). -/
def kb_no_results : String :=
  "No specific knowledge base entries found. Will use general knowledge."

/-- `KnowledgeBaseTool.retrieve` (knowledge_base_tool.py:69-112). -/
def retrieve (query : String) (max_results : Nat) : String :=
  let facts := retrieve_facts query max_results
  if facts.isEmpty then kb_no_results
  else pyJoin "\n" (facts.map (fun f => "• " ++ f))

/-! ## Intent classification (src/main.py:209-260) -/

/-- The alternatives of the validation regex at main.py:251, in order. -/
def intentOptions : List String :=
  ["explanation", "practice", "progress", "homework", "general"]

/-- `re.search(r'(explanation|practice|progress|homework|general)', s)`:
leftmost match, alternatives tried in order at each position. -/
def find_intent_token : List Char → Option String
  | [] => none
  | c :: rest =>
    match intentOptions.find? (fun w => w.data.isPrefixOf (c :: rest)) with
    | some w => some w
    | none => find_intent_token rest

/-- `OrchestratorAgent._determine_intent` (main.py:209-260): the single
completion call's outcome is the input; any exception, and any response
without a recognizable token, yields `"general"`. -/
def determine_intent (llm_response : Except String String) : String :=
  match llm_response with
  | .error _ => "general"
  | .ok response_text => (find_intent_token (pyLower response_text).data).getD "general"

/-! ## Orchestrator routing (src/main.py:77-207) -/

/-- The outcomes of the external asynchronous calls one `route_query` may
make, keyed by the arguments the code passes.  `.error e` is a raised
exception with `str(e) = e`.  `retry_parse` models
`re.search(r'retry in (\d+(?:\.\d+)?)s', err).group(1)` followed by
`float(...)` (main.py:178-183): `none` when the pattern does not match. -/
structure RouteEnv where
  intent_llm : Except String String
  explain : String → String → Except String String
  teach : String → String → Option String → Except String String
  generate_quiz : String → String → Nat → Except String String
  analyze_progress : String → Except String String
  retry_parse : String → Option ℚ

/-- `'='*60` as used in the response templates (main.py:133,149). -/
def eqLine : String := String.mk (List.replicate 60 '=')

/-- The merged response of the parallel practice plan (main.py:133). -/
def practice_response (quiz tutor_response : String) : String :=
  tutor_response ++ "\n\n" ++ eqLine ++ "\n📝 PRACTICE QUIZ\n" ++ eqLine ++ "\n\n" ++ quiz

/-- The merged response of the sequential homework plan (main.py:149). -/
def homework_response (guidance practice : String) : String :=
  guidance ++ "\n\n" ++ eqLine ++ "\n📝 PRACTICE PROBLEMS\n" ++ eqLine ++ "\n\n" ++ practice

/-- The routing-plan execution of `route_query` (main.py:110-154).  A raised
exception anywhere in a sequential or solo plan is `.error`; the parallel
practice plan gathers both branches with `return_exceptions=True` and
renders a failed branch inline (main.py:128-133), so it never fails. -/
def execute_plan (env : RouteEnv) (intent query student_id : String) :
    Except String String :=
  if intent == "explanation" then
    match env.explain query student_id with
    | .error e => .error e
    | .ok explanation => env.teach query student_id (some (explanation.take 500))
  else if intent == "practice" then
    let quiz := match env.generate_quiz query student_id 5 with
      | .ok q => q
      | .error e => "Quiz error: " ++ e
    let tutor_response := match env.teach ("Provide study tips for: " ++ query) student_id none with
      | .ok t => t
      | .error e => "Tutor error: " ++ e
    .ok (practice_response quiz tutor_response)
  else if intent == "progress" then
    env.analyze_progress student_id
  else if intent == "homework" then
    match env.teach query student_id none with
    | .error e => .error e
    | .ok guidance =>
      match env.generate_quiz ("Practice problems for: " ++ query) student_id 3 with
      | .error e => .error e
      | .ok practice => .ok (homework_response guidance practice)
  else
    env.teach query student_id none

/-- The knowledge-base fallback response (main.py:192-195). -/
def kb_fallback_response (kb_results : String) : String :=
  "I couldn't reach the language API right now due to quota limits, but here's some knowledge I can share from the local knowledge base:\n\n"
  ++ kb_results
  ++ "\n\n(This is a limited fallback; for full help please retry after the cooldown.)"

/-- The quota message carrying a retry delay (main.py:201-202). -/
def quota_retry_response (retry_seconds : ℚ) : String :=
  "I apologize — the language API quota was exceeded. Please try again in ~"
  ++ toString (pyFloatInt retry_seconds) ++ " seconds."

/-- The quota message without a retry delay (main.py:204-205). -/
def quota_generic_response : String :=
  "I apologize — the language API quota was exceeded. Please check your API key / billing or try again later."

/-- The catch-all error response (main.py:207). -/
def generic_error_response (e : String) : String :=
  "I apologize, but I encountered an error processing your request: " ++ e
  ++ "\n\nPlease try rephrasing your question or type 'help' for assistance."

/-- The `except` branch of `route_query` (main.py:174-207): on a quota
error (`RESOURCE_EXHAUSTED`/`429` in the text) try the local knowledge
base with the raw query; else (or when it finds nothing) fall back to the
quota messages — the parsed retry delay is used only when truthy, i.e.
non-zero.  Any other error yields the catch-all message. -/
def route_error_response (env : RouteEnv) (query err_text : String) : String :=
  let retry_seconds := env.retry_parse err_text
  if pyContains err_text "RESOURCE_EXHAUSTED" || pyContains err_text "429" then
    let kb_results := retrieve query 5
    if !(kb_results == "") && !(pyStartsWith (pyLower kb_results) "no specific") then
      kb_fallback_response kb_results
    else
      match retry_seconds with
      | some q => if q == 0 then quota_generic_response else quota_retry_response q
      | none => quota_generic_response
  else generic_error_response err_text

/-- The mutable stores one `OrchestratorAgent` owns. -/
structure SysState where
  memory : MemoryCache
  sessions : SessionManager
  obs : ObservabilityManager
deriving DecidableEq, Repr

/-- The clock readings one `route_query` call consumes: `time.time()` at
start, at the intent event and at completion, and the
`datetime.now().isoformat()` string used for record timestamps. -/
structure Clock where
  t_start : ℚ
  t_event : ℚ
  t_end : ℚ
  now : String
deriving DecidableEq, Repr

/-- The trace id `route_query` builds (main.py:95). -/
def route_trace_id (student_id : String) (t_start : ℚ) : String :=
  "query_" ++ student_id ++ "_" ++ toString (pyFloatInt t_start)

/-- `OrchestratorAgent.route_query` (main.py:77-207): start a trace, read
the student context (initializing an unseen student's record), classify
intent, execute the routing plan; on success update session and memory,
record metrics and end the trace with `success`; on a raised error end the
trace with `error` and return the fallback text instead of raising. -/
def route_query (env : RouteEnv) (st : SysState) (query student_id session_id : String)
    (clk : Clock) : SysState × String :=
  let trace_id := route_trace_id student_id clk.t_start
  let obs₀ := start_trace st.obs trace_id "route_query"
    [("student_id", PyVal.str student_id)] clk.t_start
  let ctxBank := get_student_context st.memory student_id clk.now
  let intent := determine_intent env.intent_llm
  let obs₁ := add_trace_event obs₀ trace_id "intent_determined"
    [("intent", PyVal.str intent)] clk.t_event
  match execute_plan env intent query student_id with
  | .ok response =>
    let mgr₁ := (update_session st.sessions session_id query response clk.now).1
    let bank₂ := mb_add_interaction ctxBank.2 student_id query response intent clk.now
    let obs₂ := record_metric obs₁ "query_routed" 1 [("intent", PyVal.str intent)] clk.now
    let obs₃ := log_performance obs₂ "orchestrator" "route_query"
      (clk.t_end - clk.t_start) true clk.now
    let obs₄ := end_trace obs₃ trace_id "success" none clk.t_end
    ({ memory := bank₂, sessions := mgr₁, obs := obs₄ }, response)
  | .error e =>
    let obs₂ := log_performance obs₁ "orchestrator" "route_query"
      (clk.t_end - clk.t_start) false clk.now
    let obs₃ := end_trace obs₂ trace_id "error" (some [("error", PyVal.str e)]) clk.t_end
    ({ memory := ctxBank.2, sessions := st.sessions, obs := obs₃ },
     route_error_response env query e)

/-! ## Helper lemmas -/

theorem takeLast_length (n : Nat) (xs : List α) :
    (takeLast n xs).length = min xs.length n := by
  simp only [takeLast, List.length_drop]; omega

theorem takeLast_of_le (n : Nat) (xs : List α) (h : xs.length ≤ n) :
    takeLast n xs = xs := by
  simp [takeLast, Nat.sub_eq_zero_of_le h]

theorem getLast?_takeLast_concat (n : Nat) (hn : 0 < n) (xs : List α) (a : α) :
    (takeLast n (xs ++ [a])).getLast? = some a := by
  unfold takeLast
  rw [List.drop_append_of_le_length (by simp; omega), List.getLast?_concat]

theorem lookup_pyUpsert_self [BEq α] [LawfulBEq α] (k : α) (v : β) (l : List (α × β)) :
    (pyUpsert k v l).lookup k = some v := by
  induction l with
  | nil => simp [pyUpsert, List.lookup]
  | cons p rest ih =>
    obtain ⟨k₁, v₁⟩ := p
    by_cases h : k = k₁
    · simp [pyUpsert, List.lookup, beq_iff_eq, h]
    · have hb : (k == k₁) = false := beq_eq_false_iff_ne.mpr h
      simp [pyUpsert, List.lookup, hb, ih]

theorem lookup_pyUpsert_ne [BEq α] [LawfulBEq α] (k k' : α) (v : β) (l : List (α × β))
    (h : k' ≠ k) : (pyUpsert k v l).lookup k' = l.lookup k' := by
  have hb : (k' == k) = false := beq_eq_false_iff_ne.mpr h
  induction l with
  | nil => simp [pyUpsert, List.lookup, hb]
  | cons p rest ih =>
    obtain ⟨k₁, v₁⟩ := p
    by_cases h₁ : k = k₁
    · subst h₁; simp [pyUpsert, List.lookup, hb]
    · have hb₁ : (k == k₁) = false := beq_eq_false_iff_ne.mpr h₁
      simp [pyUpsert, List.lookup, hb₁, ih]

theorem add_interaction_interactions (m : Memory) (q r i n : String) :
    (add_interaction m q r i n).interactions
      = takeLast 50 (m.interactions ++ [mkInteraction q r i n]) := by
  show (if (m.interactions ++ [mkInteraction q r i n]).length > 50
        then takeLast 50 (m.interactions ++ [mkInteraction q r i n])
        else m.interactions ++ [mkInteraction q r i n])
      = takeLast 50 (m.interactions ++ [mkInteraction q r i n])
  split
  · rfl
  · next h => rw [takeLast_of_le 50 _ (by omega)]

/-- One `add_interaction` call per input entry, in order. -/
structure AddInput where
  query : String
  response : String
  intent : String
  now : String
deriving DecidableEq, Repr

/-- The interaction record the call for one input appends. -/
def toInteraction (i : AddInput) : Interaction :=
  mkInteraction i.query i.response i.intent i.now

/-- A sequence of `add_interaction` calls on one student's record. -/
def apply_adds : Memory → List AddInput → Memory
  | m, [] => m
  | m, i :: rest => apply_adds (add_interaction m i.query i.response i.intent i.now) rest

theorem apply_adds_length (inputs : List AddInput) : ∀ m : Memory,
    m.interactions.length ≤ 50 →
    (apply_adds m inputs).interactions.length
      = min (m.interactions.length + inputs.length) 50 := by
  induction inputs with
  | nil => intro m h; simp [apply_adds]; omega
  | cons i rest ih =>
    intro m h
    have hstep : (add_interaction m i.query i.response i.intent i.now).interactions.length
        = min (m.interactions.length + 1) 50 := by
      rw [add_interaction_interactions, takeLast_length]; simp
    have hle : (add_interaction m i.query i.response i.intent i.now).interactions.length ≤ 50 := by
      omega
    show (apply_adds (add_interaction m i.query i.response i.intent i.now) rest).interactions.length = _
    rw [ih _ hle, hstep]
    simp only [List.length_cons]
    omega

theorem apply_adds_getLast (inputs : List AddInput) : ∀ m : Memory, inputs ≠ [] →
    (apply_adds m inputs).interactions.getLast? = inputs.getLast?.map toInteraction := by
  induction inputs with
  | nil => intro m h; exact absurd rfl h
  | cons i rest ih =>
    intro m _
    cases rest with
    | nil =>
      show (add_interaction m i.query i.response i.intent i.now).interactions.getLast? = _
      rw [add_interaction_interactions, getLast?_takeLast_concat 50 (by omega)]
      rfl
    | cons j rest' =>
      show (apply_adds (add_interaction m i.query i.response i.intent i.now) (j :: rest')).interactions.getLast? = _
      rw [ih _ (by simp), List.getLast?_cons_cons]

/-- **C1**: after `add_interaction` is called `k > 50` times on a fresh
student record, the stored interactions list has length exactly 50, the
most recent interaction is its last element, and after every prefix of the
calls the 50-entry cap holds (each call appends and trims in one step). -/
theorem add_interaction_cap_invariant (student_id now₀ : String) (inputs : List AddInput)
    (hk : 50 < inputs.length) :
    (apply_adds (init_memory student_id now₀) inputs).interactions.length = 50
    ∧ (apply_adds (init_memory student_id now₀) inputs).interactions.getLast?
        = inputs.getLast?.map toInteraction
    ∧ ∀ j : Nat,
        (apply_adds (init_memory student_id now₀) (inputs.take j)).interactions.length ≤ 50 := by
  refine ⟨?_, ?_, ?_⟩
  · rw [apply_adds_length inputs _ (by simp [init_memory])]
    simp [init_memory]
    omega
  · exact apply_adds_getLast inputs _ (by intro h; rw [h] at hk; simp at hk)
  · intro j
    rw [apply_adds_length _ _ (by simp [init_memory])]
    omega

theorem add_interaction_cap_invariant_w :
    (apply_adds (init_memory "s1" "t0")
      (List.replicate 51 ⟨"hello", "resp", "general", "t1"⟩)).interactions.length = 50 :=
  (add_interaction_cap_invariant "s1" "t0"
    (List.replicate 51 ⟨"hello", "resp", "general", "t1"⟩) (by simp)).1

/-- **C10**: `get_student_context` reports `total_interactions` as the
current length of the stored interactions list; since `add_interaction`
caps that list at 50, after `k` calls on a fresh record it reports
`min k 50` — never more than 50, and no longer a lifetime count once more
than 50 interactions have been added. -/
theorem total_interactions_matches_capped_log (student_id now₀ : String)
    (inputs : List AddInput) :
    (∀ m : Memory, (get_student_context_mem m).total_interactions = m.interactions.length)
    ∧ (get_student_context_mem
        (apply_adds (init_memory student_id now₀) inputs)).total_interactions
        = min inputs.length 50 := by
  constructor
  · intro m; rfl
  · show (apply_adds (init_memory student_id now₀) inputs).interactions.length = _
    rw [apply_adds_length _ _ (by simp [init_memory])]
    simp [init_memory]

/-- **C4**: session start is get-or-create — starting a session while one
is active returns the existing id, so two consecutive get-or-create calls
without an intervening `end_session` return the same session id, and after
either call the student's single current-session slot holds exactly that
id. -/
theorem get_or_create_session_stable (mgr : SessionManager)
    (student_id id₁ id₂ now₁ now₂ : String) :
    (get_or_create_session
        (get_or_create_session mgr student_id id₁ now₁).2 student_id id₂ now₂).1
      = (get_or_create_session mgr student_id id₁ now₁).1
    ∧ get_current_session (get_or_create_session mgr student_id id₁ now₁).2 student_id
      = some (get_or_create_session mgr student_id id₁ now₁).1 := by
  have key : get_current_session (get_or_create_session mgr student_id id₁ now₁).2 student_id
      = some (get_or_create_session mgr student_id id₁ now₁).1 := by
    unfold get_or_create_session
    cases hcur : get_current_session mgr student_id with
    | some sid => simpa [get_current_session] using hcur
    | none =>
      simp only [create_session, get_current_session]
      exact lookup_pyUpsert_self student_id id₁ mgr.student_sessions
  refine ⟨?_, key⟩
  set p := get_or_create_session mgr student_id id₁ now₁ with hp
  show (get_or_create_session p.2 student_id id₂ now₂).1 = p.1
  unfold get_or_create_session
  rw [key]

/-- Every token the validation search can return is one of the five
intents. -/
theorem find_intent_token_mem (cs : List Char) (x : String)
    (h : find_intent_token cs = some x) : x ∈ intentOptions := by
  induction cs with
  | nil => simp [find_intent_token] at h
  | cons c rest ih =>
    rw [find_intent_token] at h
    cases hf : (intentOptions.find? (fun w => w.data.isPrefixOf (c :: rest))) with
    | some w =>
      rw [hf] at h
      cases h
      exact List.mem_of_find?_eq_some hf
    | none =>
      rw [hf] at h
      exact ih h

/-- **C5**: intent classification always yields one of the five intents
{explanation, practice, progress, homework, general}; a failed completion
call yields `general`, and so does a response without a recognizable
intent token — no error ever propagates (the classifier is a total
function of the call's outcome). -/
theorem determine_intent_total_and_safe :
    (∀ r : Except String String, determine_intent r ∈ intentOptions)
    ∧ (∀ e : String, determine_intent (Except.error e) = "general")
    ∧ (∀ s : String, find_intent_token (pyLower s).data = none →
        determine_intent (Except.ok s) = "general") := by
  refine ⟨?_, fun e => rfl, ?_⟩
  · intro r
    cases r with
    | error e => simp [determine_intent, intentOptions]
    | ok s =>
      rw [determine_intent]
      cases hf : find_intent_token (pyLower s).data with
      | some x => simpa [hf] using find_intent_token_mem _ _ hf
      | none => simp [hf, intentOptions]
  · intro s h
    simp [determine_intent, h]

theorem determine_intent_total_and_safe_w :
    determine_intent (Except.ok "hello there") = "general" :=
  determine_intent_total_and_safe.2.2 "hello there" (by decide)

/-! ## C7: trace events after end_trace -/

/-- A trace that has been started and then ended with terminal status
`success`. -/
def endedTraceObs : ObservabilityManager :=
  end_trace (start_trace ObservabilityManager.init "t1" "route_query" [] 0) "t1" "success" none 1

/-- A late event added to the already-terminal trace. -/
def endedTraceObsLate : ObservabilityManager :=
  add_trace_event endedTraceObs "t1" "late_event" [] 2

/-- **C7, counterexample**: `add_trace_event` on a trace id whose status
`end_trace` already set to the terminal value `success` is *not* a no-op:
the event is appended (the trace stays in the map and only unknown ids are
filtered), so the claim that events are appended only while the trace is
non-terminal is false. -/
theorem add_trace_event_after_terminal_appends :
    ((endedTraceObs.traces.lookup "t1").map Trace.status = some "success")
    ∧ ((endedTraceObsLate.traces.lookup "t1").map (fun tr => tr.events.length) = some 1) := by
  constructor <;> rfl

/-- **C7, amended**: `add_trace_event` on an unknown trace id is a silent
no-op (the state is unchanged and nothing is appended, and being a total
function it never raises); on any known trace id — whether or not
`end_trace` has already set a terminal status — it appends exactly the
one event to that trace. -/
theorem add_trace_event_noop_or_append (o : ObservabilityManager)
    (trace_id event_name : String) (data : List (String × PyVal)) (t : ℚ) :
    (o.traces.lookup trace_id = none →
      add_trace_event o trace_id event_name data t = o)
    ∧ (∀ tr, o.traces.lookup trace_id = some tr →
        (add_trace_event o trace_id event_name data t).traces.lookup trace_id
          = some { tr with events := tr.events ++ [⟨t, event_name, data⟩] }) := by
  constructor
  · intro h
    unfold add_trace_event
    rw [h]
  · intro tr h
    unfold add_trace_event
    rw [h]
    exact lookup_pyUpsert_self trace_id _ o.traces

theorem add_trace_event_noop_or_append_w :
    add_trace_event ObservabilityManager.init "unknown" "e" [] 3
      = ObservabilityManager.init :=
  (add_trace_event_noop_or_append ObservabilityManager.init "unknown" "e" [] 3).1 rfl

/-! ## C8: compaction -/

/-- A record holding 51 interactions, the oldest one with topic `math`. -/
def mem51 : Memory :=
  { init_memory "s1" "t0" with
    interactions := mkInteraction "algebra question" "resp" "general" "t1"
      :: List.replicate 50 (mkInteraction "hello" "resp" "general" "t2") }

/-- **C8, counterexample**: with threshold 50 (the claim quantifies over
every threshold) compaction is not idempotent: the first run on a
51-entry log folds the old `math` entry into the context summary, the
second run fires again (50 ≥ 50) and overwrites the summary with an empty
aggregate. -/
theorem compact_old_memories_not_idempotent :
    (compact_old_memories mem51 50).context_summary
        = "Earlier sessions covered: \x7b'math': 1\x7d"
    ∧ (compact_old_memories (compact_old_memories mem51 50) 50).context_summary
        = "Earlier sessions covered: \x7b\x7d"
    ∧ compact_old_memories (compact_old_memories mem51 50) 50
        ≠ compact_old_memories mem51 50 := by
  refine ⟨by decide, by decide, ?_⟩
  intro h
  have := congrArg Memory.context_summary h
  revert this
  decide

/-- **C8, amended**: for every threshold strictly above the 50-entry
retention window (in particular the default 100), compaction is
idempotent; and whenever it fires it keeps exactly the most recent 50
interactions while folding exactly the dropped older entries into the
context summary — so it is lossy only for entries folded into the summary
in that same run. -/
theorem compact_of_lt_threshold (m : Memory) (threshold : Nat)
    (h : m.interactions.length < threshold) : compact_old_memories m threshold = m := by
  unfold compact_old_memories
  rw [if_pos h]

theorem compact_old_memories_idempotent_above_cap (m : Memory) (threshold : Nat)
    (h : 50 < threshold) :
    compact_old_memories (compact_old_memories m threshold) threshold
      = compact_old_memories m threshold
    ∧ (threshold ≤ m.interactions.length →
        (compact_old_memories m threshold).interactions = takeLast 50 m.interactions
        ∧ (compact_old_memories m threshold).context_summary
            = "Earlier sessions covered: "
              ++ pyDictRepr (topicCounts (m.interactions.take (m.interactions.length - 50)))) := by
  by_cases hlen : m.interactions.length < threshold
  · have hid := compact_of_lt_threshold m threshold hlen
    constructor
    · rw [hid, hid]
    · intro hth; omega
  · have hfire : compact_old_memories m threshold
        = { m with
            context_summary := "Earlier sessions covered: "
              ++ pyDictRepr (topicCounts (m.interactions.take (m.interactions.length - 50)))
            interactions := takeLast 50 m.interactions } := by
      unfold compact_old_memories
      rw [if_neg hlen]
    have hlen' : (compact_old_memories m threshold).interactions.length < threshold := by
      rw [hfire]
      show (takeLast 50 m.interactions).length < threshold
      rw [takeLast_length]
      omega
    constructor
    · exact compact_of_lt_threshold _ _ hlen'
    · intro _
      rw [hfire]
      exact ⟨rfl, rfl⟩

theorem compact_old_memories_idempotent_above_cap_w :
    compact_old_memories (compact_old_memories mem51 51) 51
      = compact_old_memories mem51 51 :=
  (compact_old_memories_idempotent_above_cap mem51 51 (by omega)).1

/-! ## Route-plan reduction lemmas -/

theorem execute_plan_explanation (env : RouteEnv) (q sid : String) :
    execute_plan env "explanation" q sid
      = (match env.explain q sid with
        | .error e => .error e
        | .ok ex => env.teach q sid (some (ex.take 500))) := by
  simp [execute_plan]

theorem execute_plan_practice (env : RouteEnv) (q sid : String) :
    execute_plan env "practice" q sid
      = .ok (practice_response
          (match env.generate_quiz q sid 5 with
            | .ok qz => qz
            | .error e => "Quiz error: " ++ e)
          (match env.teach ("Provide study tips for: " ++ q) sid none with
            | .ok t => t
            | .error e => "Tutor error: " ++ e)) := by
  simp [execute_plan]

theorem route_query_ok (env : RouteEnv) (st : SysState) (q sid sess : String)
    (clk : Clock) (r : String)
    (h : execute_plan env (determine_intent env.intent_llm) q sid = Except.ok r) :
    route_query env st q sid sess clk
      = ({ memory := mb_add_interaction (get_student_context st.memory sid clk.now).2
             sid q r (determine_intent env.intent_llm) clk.now,
           sessions := (update_session st.sessions sess q r clk.now).1,
           obs := end_trace
             (log_performance
               (record_metric
                 (add_trace_event
                   (start_trace st.obs (route_trace_id sid clk.t_start) "route_query"
                     [("student_id", PyVal.str sid)] clk.t_start)
                   (route_trace_id sid clk.t_start) "intent_determined"
                   [("intent", PyVal.str (determine_intent env.intent_llm))] clk.t_event)
                 "query_routed" 1 [("intent", PyVal.str (determine_intent env.intent_llm))] clk.now)
               "orchestrator" "route_query" (clk.t_end - clk.t_start) true clk.now)
             (route_trace_id sid clk.t_start) "success" none clk.t_end }, r) := by
  simp only [route_query]
  rw [h]

theorem route_query_err (env : RouteEnv) (st : SysState) (q sid sess : String)
    (clk : Clock) (e : String)
    (h : execute_plan env (determine_intent env.intent_llm) q sid = Except.error e) :
    route_query env st q sid sess clk
      = ({ memory := (get_student_context st.memory sid clk.now).2,
           sessions := st.sessions,
           obs := end_trace
             (log_performance
               (add_trace_event
                 (start_trace st.obs (route_trace_id sid clk.t_start) "route_query"
                   [("student_id", PyVal.str sid)] clk.t_start)
                 (route_trace_id sid clk.t_start) "intent_determined"
                 [("intent", PyVal.str (determine_intent env.intent_llm))] clk.t_event)
               "orchestrator" "route_query" (clk.t_end - clk.t_start) false clk.now)
             (route_trace_id sid clk.t_start) "error"
             (some [("error", PyVal.str e)]) clk.t_end },
         route_error_response env q e) := by
  simp only [route_query]
  rw [h]

theorem pyContains_practice_tutor (qz t : String) :
    pyContains (practice_response qz t) t = true := by
  apply decide_eq_true
  show t.data <:+: (practice_response qz t).data
  simp only [practice_response, String.data_append, List.append_assoc]
  exact (List.prefix_append _ _).isInfix

theorem pyContains_practice_quiz (qz t : String) :
    pyContains (practice_response qz t) qz = true := by
  apply decide_eq_true
  show qz.data <:+: (practice_response qz t).data
  simp only [practice_response, String.data_append]
  exact (List.suffix_append _ _).isInfix

/-- **C9**: for an `explanation` intent the plan is sequential — the
concept explainer runs on the query, exactly the first 500 characters of
its output are the context passed to `Tutor.teach` on the same query, and
the tutor's result is the response.  When the explainer stage fails, the
whole call is independent of the tutor function: the tutor stage is never
consulted before (or without) the explainer completing. -/
theorem explanation_plan_sequential (env : RouteEnv) (st : SysState)
    (query student_id session_id : String) (clk : Clock)
    (hI : determine_intent env.intent_llm = "explanation") :
    (∀ ex resp, env.explain query student_id = Except.ok ex →
        env.teach query student_id (some (ex.take 500)) = Except.ok resp →
        (route_query env st query student_id session_id clk).2 = resp)
    ∧ (∀ (e : String) (f g : String → String → Option String → Except String String),
        env.explain query student_id = Except.error e →
        route_query { env with teach := f } st query student_id session_id clk
          = route_query { env with teach := g } st query student_id session_id clk) := by
  constructor
  · intro ex resp hex hteach
    have hplan : execute_plan env (determine_intent env.intent_llm) query student_id
        = Except.ok resp := by
      rw [hI, execute_plan_explanation, hex]
      exact hteach
    rw [route_query_ok env st query student_id session_id clk resp hplan]
  · intro e f g hex
    have hf : execute_plan { env with teach := f }
        (determine_intent ({ env with teach := f } : RouteEnv).intent_llm) query student_id
        = Except.error e := by
      show execute_plan { env with teach := f } (determine_intent env.intent_llm)
          query student_id = Except.error e
      rw [hI, execute_plan_explanation]
      show (match env.explain query student_id with
            | .error e => Except.error e
            | .ok ex => f query student_id (some (ex.take 500))) = Except.error e
      rw [hex]
    have hg : execute_plan { env with teach := g }
        (determine_intent ({ env with teach := g } : RouteEnv).intent_llm) query student_id
        = Except.error e := by
      show execute_plan { env with teach := g } (determine_intent env.intent_llm)
          query student_id = Except.error e
      rw [hI, execute_plan_explanation]
      show (match env.explain query student_id with
            | .error e => Except.error e
            | .ok ex => g query student_id (some (ex.take 500))) = Except.error e
      rw [hex]
    rw [route_query_err _ st query student_id session_id clk e hf,
        route_query_err _ st query student_id session_id clk e hg]
    rfl

theorem explanation_plan_sequential_w :
    (route_query
      { intent_llm := Except.ok "explanation",
        explain := fun _ _ => Except.ok "EXPLAINED",
        teach := fun _ _ _ => Except.ok "TAUGHT",
        generate_quiz := fun _ _ _ => Except.ok "QUIZ",
        analyze_progress := fun _ => Except.ok "PROGRESS",
        retry_parse := fun _ => none }
      ⟨[], SessionManager.init, ObservabilityManager.init⟩
      "why is the sky blue" "s1" "sess1" ⟨0, 1, 2, "t"⟩).2 = "TAUGHT" :=
  (explanation_plan_sequential _ _ "why is the sky blue" "s1" "sess1" ⟨0, 1, 2, "t"⟩
    (by decide)).1 "EXPLAINED" "TAUGHT" rfl rfl

/-- **C3**: in the parallel practice plan, when exactly one branch fails
the call still succeeds (the plan always yields a value — the failure is
never re-raised and the sibling's outcome is still used): the response is
the tutor text followed by the quiz section header followed by the quiz
text, with the failed branch replaced by its inline diagnostic string and
the successful branch's full text contained verbatim. -/
theorem practice_plan_isolates_branch_failure (env : RouteEnv) (st : SysState)
    (query student_id session_id : String) (clk : Clock)
    (hI : determine_intent env.intent_llm = "practice") :
    (∀ e tu, env.generate_quiz query student_id 5 = Except.error e →
        env.teach ("Provide study tips for: " ++ query) student_id none = Except.ok tu →
        (route_query env st query student_id session_id clk).2
            = practice_response ("Quiz error: " ++ e) tu
        ∧ pyContains (route_query env st query student_id session_id clk).2 tu = true
        ∧ pyContains (route_query env st query student_id session_id clk).2
            ("Quiz error: " ++ e) = true)
    ∧ (∀ e qz, env.teach ("Provide study tips for: " ++ query) student_id none
          = Except.error e →
        env.generate_quiz query student_id 5 = Except.ok qz →
        (route_query env st query student_id session_id clk).2
            = practice_response qz ("Tutor error: " ++ e)
        ∧ pyContains (route_query env st query student_id session_id clk).2 qz = true
        ∧ pyContains (route_query env st query student_id session_id clk).2
            ("Tutor error: " ++ e) = true)
    ∧ (∃ r, execute_plan env (determine_intent env.intent_llm) query student_id
        = Except.ok r) := by
  refine ⟨?_, ?_, ?_⟩
  · intro e tu hq ht
    have hplan : execute_plan env (determine_intent env.intent_llm) query student_id
        = Except.ok (practice_response ("Quiz error: " ++ e) tu) := by
      rw [hI, execute_plan_practice, hq, ht]
    rw [route_query_ok env st query student_id session_id clk _ hplan]
    exact ⟨rfl, pyContains_practice_tutor _ _, pyContains_practice_quiz _ _⟩
  · intro e qz ht hq
    have hplan : execute_plan env (determine_intent env.intent_llm) query student_id
        = Except.ok (practice_response qz ("Tutor error: " ++ e)) := by
      rw [hI, execute_plan_practice, hq, ht]
    rw [route_query_ok env st query student_id session_id clk _ hplan]
    exact ⟨rfl, pyContains_practice_quiz _ _, pyContains_practice_tutor _ _⟩
  · rw [hI, execute_plan_practice]
    exact ⟨_, rfl⟩

theorem practice_plan_isolates_branch_failure_w :
    (route_query
      { intent_llm := Except.ok "practice",
        explain := fun _ _ => Except.ok "EXPLAINED",
        teach := fun _ _ _ => Except.ok "STUDY TIPS",
        generate_quiz := fun _ _ _ => Except.error "boom",
        analyze_progress := fun _ => Except.ok "PROGRESS",
        retry_parse := fun _ => none }
      ⟨[], SessionManager.init, ObservabilityManager.init⟩
      "algebra" "s1" "sess1" ⟨0, 1, 2, "t"⟩).2
      = practice_response ("Quiz error: " ++ "boom") "STUDY TIPS" :=
  ((practice_plan_isolates_branch_failure _ _ "algebra" "s1" "sess1" ⟨0, 1, 2, "t"⟩
    (by decide)).1 "boom" "STUDY TIPS" rfl rfl).1

/-! ## Observability and fallback lemmas for the quota path -/

theorem start_trace_lookup_self (o : ObservabilityManager) (tid op : String)
    (md : List (String × PyVal)) (t : ℚ) :
    (start_trace o tid op md t).traces.lookup tid
      = some { trace_id := tid, operation := op, start_time := t, metadata := md,
               events := [], status := "in_progress",
               end_time := none, duration := none, result := none } := by
  unfold start_trace
  exact lookup_pyUpsert_self tid _ o.traces

theorem lookup_add_trace_event (o : ObservabilityManager) (tid n : String)
    (d : List (String × PyVal)) (t : ℚ) :
    (add_trace_event o tid n d t).traces.lookup tid
      = (o.traces.lookup tid).map
          (fun tr => { tr with events := tr.events ++ [⟨t, n, d⟩] }) := by
  cases h : o.traces.lookup tid with
  | none => simp [add_trace_event, h]
  | some tr => simp [add_trace_event, h, lookup_pyUpsert_self]

theorem end_trace_status_of_some (o : ObservabilityManager) (tid status : String)
    (r : Option (List (String × PyVal))) (t : ℚ) (tr : Trace)
    (h : o.traces.lookup tid = some tr) :
    ((end_trace o tid status r t).traces.lookup tid).map Trace.status = some status := by
  simp [end_trace, h, lookup_pyUpsert_self]

theorem route_err_trace_status (o : ObservabilityManager) (tid n : String)
    (md d : List (String × PyVal)) (t₀ t₁ : ℚ) (c op : String) (dur : ℚ)
    (now : String) (r : Option (List (String × PyVal))) (t₂ : ℚ) :
    ((end_trace
        (log_performance (add_trace_event (start_trace o tid "route_query" md t₀) tid n d t₁)
          c op dur false now)
        tid "error" r t₂).traces.lookup tid).map Trace.status = some "error" := by
  have hlook : (log_performance
        (add_trace_event (start_trace o tid "route_query" md t₀) tid n d t₁)
        c op dur false now).traces.lookup tid
      = some { trace_id := tid, operation := "route_query", start_time := t₀,
               metadata := md, events := [⟨t₁, n, d⟩], status := "in_progress",
               end_time := none, duration := none, result := none } := by
    show (add_trace_event (start_trace o tid "route_query" md t₀) tid n d t₁).traces.lookup tid
        = _
    rw [lookup_add_trace_event, start_trace_lookup_self]
    rfl
  exact end_trace_status_of_some _ _ _ _ _ _ hlook

theorem retrieve_of_facts_nil (q : String) (h : retrieve_facts q 5 = []) :
    retrieve q 5 = kb_no_results := by
  simp [retrieve, h]

theorem retrieve_data_shape (q : String) (f : String) (fs : List String)
    (h : retrieve_facts q 5 = f :: fs) :
    ∃ r, (retrieve q 5).data = '•' :: ' ' :: (f.data ++ r) := by
  unfold retrieve
  rw [h]
  cases fs with
  | nil =>
    refine ⟨[], ?_⟩
    simp [pyJoin, String.data_append, show ("• " : String).data = ['•', ' '] from rfl]
  | cons f₂ fs₂ =>
    refine ⟨("\n" : String).data
      ++ (pyJoin "\n" ((f₂ :: fs₂).map (fun x => "• " ++ x))).data, ?_⟩
    simp [pyJoin, String.data_append, List.append_assoc,
      show ("• " : String).data = ['•', ' '] from rfl]

theorem retrieve_guard_of_ne (q : String) (h : retrieve_facts q 5 ≠ []) :
    (!(retrieve q 5 == "")
      && !(pyStartsWith (pyLower (retrieve q 5)) "no specific")) = true := by
  obtain ⟨f, fs, hf⟩ : ∃ f fs, retrieve_facts q 5 = f :: fs := by
    cases hc : retrieve_facts q 5 with
    | nil => exact absurd hc h
    | cons a l => exact ⟨a, l, rfl⟩
  obtain ⟨r, hdata⟩ := retrieve_data_shape q f fs hf
  rw [Bool.and_eq_true, Bool.not_eq_true', Bool.not_eq_true']
  constructor
  · rw [beq_eq_false_iff_ne]
    intro he
    have hd := congrArg String.data he
    rw [hdata] at hd
    exact absurd hd (by simp)
  · apply decide_eq_false
    show ¬ (("no specific" : String).data <+: (pyLower (retrieve q 5)).data)
    have hlow : (pyLower (retrieve q 5)).data = (retrieve q 5).data.map Char.toLower := rfl
    rw [hlow, hdata]
    rw [show ("no specific" : String).data = 'n' :: ("o specific" : String).data from rfl]
    simp only [List.map_cons]
    rw [List.cons_prefix_cons]
    rintro ⟨h1, -⟩
    revert h1
    decide

theorem route_error_quota_facts (env : RouteEnv) (q e : String)
    (hq : (pyContains e "RESOURCE_EXHAUSTED" || pyContains e "429") = true)
    (h : retrieve_facts q 5 ≠ []) :
    route_error_response env q e = kb_fallback_response (retrieve q 5) := by
  have hguard := retrieve_guard_of_ne q h
  simp only [route_error_response, hq, hguard, if_true]

theorem route_error_quota_empty (env : RouteEnv) (q e : String)
    (hq : (pyContains e "RESOURCE_EXHAUSTED" || pyContains e "429") = true)
    (h : retrieve_facts q 5 = []) :
    route_error_response env q e
      = (match env.retry_parse e with
         | some x => if x == 0 then quota_generic_response else quota_retry_response x
         | none => quota_generic_response) := by
  have hr : retrieve q 5 = kb_no_results := retrieve_of_facts_nil q h
  have hguard : (!(retrieve q 5 == "")
      && !(pyStartsWith (pyLower (retrieve q 5)) "no specific")) = false := by
    rw [hr]
    decide
  simp only [route_error_response, hq, hguard, if_true, Bool.false_eq_true, if_false]

theorem pyContains_append_left (a b sub : String) (h : pyContains a sub = true) :
    pyContains (a ++ b) sub = true := by
  apply decide_eq_true
  have h' := of_decide_eq_true h
  rw [String.data_append]
  exact h'.trans (List.prefix_append _ _).isInfix

theorem pyContains_kb_fallback_results (k : String) :
    pyContains (kb_fallback_response k) k = true := by
  apply decide_eq_true
  show k.data <:+: (kb_fallback_response k).data
  simp only [kb_fallback_response, String.data_append]
  exact List.infix_append _ _ _

set_option maxRecDepth 4000 in
theorem pyContains_kb_fallback_disclaimer (k : String) :
    pyContains (kb_fallback_response k)
      "knowledge I can share from the local knowledge base" = true := by
  apply pyContains_append_left
  apply pyContains_append_left
  decide

theorem pyContains_quota_retry (x : ℚ) :
    pyContains (quota_retry_response x) (toString (pyFloatInt x) ++ " seconds.") = true := by
  apply decide_eq_true
  show _ <:+: _
  simp only [quota_retry_response, String.data_append, List.append_assoc]
  exact (List.suffix_append _ _).isInfix

/-- **C2, amended**: when plan execution raises a quota error
(`RESOURCE_EXHAUSTED`/`429` in its text), `route_query` ends the trace with
status `error` and returns text instead of raising: the knowledge-base
fallback response (containing the disclaimer phrase and the retrieved
facts) when the local lookup on the raw query finds at least one fact;
otherwise the temporarily-unavailable message, which carries the parsed
retry delay only when the error communicated a *non-zero* one — a parsed
delay of 0 is falsy in the code's truthiness test and is dropped. -/
theorem quota_fallback_behaviour (env : RouteEnv) (st : SysState)
    (query student_id session_id : String) (clk : Clock) (e : String)
    (hplan : execute_plan env (determine_intent env.intent_llm) query student_id
      = Except.error e)
    (hquota : (pyContains e "RESOURCE_EXHAUSTED" || pyContains e "429") = true) :
    ((route_query env st query student_id session_id clk).1.obs.traces.lookup
        (route_trace_id student_id clk.t_start)).map Trace.status = some "error"
    ∧ (retrieve_facts query 5 ≠ [] →
        (route_query env st query student_id session_id clk).2
          = kb_fallback_response (retrieve query 5)
        ∧ pyContains (route_query env st query student_id session_id clk).2
            (retrieve query 5) = true
        ∧ pyContains (route_query env st query student_id session_id clk).2
            "knowledge I can share from the local knowledge base" = true)
    ∧ (retrieve_facts query 5 = [] →
        (env.retry_parse e = none →
          (route_query env st query student_id session_id clk).2 = quota_generic_response)
        ∧ (env.retry_parse e = some 0 →
          (route_query env st query student_id session_id clk).2 = quota_generic_response)
        ∧ (∀ x, env.retry_parse e = some x → x ≠ 0 →
          (route_query env st query student_id session_id clk).2 = quota_retry_response x
          ∧ pyContains (route_query env st query student_id session_id clk).2
              (toString (pyFloatInt x) ++ " seconds.") = true)) := by
  rw [route_query_err env st query student_id session_id clk e hplan]
  refine ⟨?_, ?_, ?_⟩
  · exact route_err_trace_status st.obs _ _ _ _ _ _ _ _ _ _ _ _
  · intro h
    have hresp : route_error_response env query e = kb_fallback_response (retrieve query 5) :=
      route_error_quota_facts env query e hquota h
    refine ⟨hresp, ?_, ?_⟩
    · show pyContains (route_error_response env query e) (retrieve query 5) = true
      rw [hresp]
      exact pyContains_kb_fallback_results _
    · show pyContains (route_error_response env query e)
        "knowledge I can share from the local knowledge base" = true
      rw [hresp]
      exact pyContains_kb_fallback_disclaimer _
  · intro h
    have hre := route_error_quota_empty env query e hquota h
    refine ⟨?_, ?_, ?_⟩
    · intro hn
      show route_error_response env query e = quota_generic_response
      rw [hre, hn]
    · intro h0
      show route_error_response env query e = quota_generic_response
      rw [hre, h0]
      simp
    · intro x hs hx
      have hb : (x == 0) = false := beq_eq_false_iff_ne.mpr hx
      constructor
      · show route_error_response env query e = quota_retry_response x
        rw [hre, hs]
        simp [hb]
      · show pyContains (route_error_response env query e)
          (toString (pyFloatInt x) ++ " seconds.") = true
        rw [hre, hs]
        simp only [hb, Bool.false_eq_true, if_false]
        exact pyContains_quota_retry x

/-- An environment whose plan execution raises a 429 quota error; the
error text has no `retry in ...s` clause, so the regex yields `none`. -/
def envQuota429 : RouteEnv :=
  { intent_llm := Except.ok "general",
    explain := fun _ _ => Except.ok "EXPLAINED",
    teach := fun _ _ _ => Except.error "Error 429: quota exceeded",
    generate_quiz := fun _ _ _ => Except.ok "QUIZ",
    analyze_progress := fun _ => Except.ok "PROGRESS",
    retry_parse := fun _ => none }

theorem quota_fallback_behaviour_w :
    (route_query envQuota429 ⟨[], SessionManager.init, ObservabilityManager.init⟩
      "algebra" "s1" "sess1" ⟨0, 1, 2, "t"⟩).2
      = kb_fallback_response (retrieve "algebra" 5) :=
  ((quota_fallback_behaviour envQuota429 ⟨[], SessionManager.init, ObservabilityManager.init⟩
      "algebra" "s1" "sess1" ⟨0, 1, 2, "t"⟩ "Error 429: quota exceeded"
      rfl (by decide)).2.1 (by decide)).1

/-- The quota error text of the counterexample: the code's regex
`retry in (\d+(?:\.\d+)?)s` matches it with group `0`, so
`retry_seconds = float("0") = 0.0`. -/
def quotaZeroErrText : String := "RESOURCE_EXHAUSTED: quota exceeded, retry in 0s"

/-- An environment raising that error; `retry_parse` returns the regex's
match on it, `0`. -/
def envQuotaZero : RouteEnv :=
  { intent_llm := Except.ok "general",
    explain := fun _ _ => Except.ok "EXPLAINED",
    teach := fun _ _ _ => Except.error quotaZeroErrText,
    generate_quiz := fun _ _ _ => Except.ok "QUIZ",
    analyze_progress := fun _ => Except.ok "PROGRESS",
    retry_parse := fun s => if pyContains s "retry in 0s" then some 0 else none }

set_option maxRecDepth 8000 in
/-- **C2, counterexample**: the claim says the temporarily-unavailable
message "includes the retry delay when the error communicated one".  Here
the quota error communicates a retry delay (the regex parses `0` out of
`retry in 0s`), the query `"zzzz"` finds no knowledge-base fact, yet the
returned message is the generic one, which contains no digit at all — the
zero delay is dropped because `if retry_seconds:` is false at `0.0`. -/
theorem quota_zero_retry_dropped :
    envQuotaZero.retry_parse quotaZeroErrText = some 0
    ∧ retrieve_facts "zzzz" 5 = []
    ∧ (route_query envQuotaZero ⟨[], SessionManager.init, ObservabilityManager.init⟩
        "zzzz" "s1" "sess1" ⟨0, 1, 2, "t"⟩).2 = quota_generic_response
    ∧ quota_generic_response.data.all (fun c => !(c == '0')) = true := by
  refine ⟨by decide, by decide, rfl, by decide⟩

/-! ## Store frame lemmas for C6 -/

theorem load_memory_lookup_other (bank : MemoryCache) (sid now s : String) (h : s ≠ sid) :
    (load_memory bank sid now).2.lookup s = bank.lookup s := by
  unfold load_memory
  cases hb : bank.lookup sid with
  | some m => simp [hb]
  | none => simp [hb, lookup_pyUpsert_ne _ _ _ _ h]

theorem interactions_of_load (bank : MemoryCache) (sid now s : String) :
    interactions_of (load_memory bank sid now).2 s = interactions_of bank s := by
  by_cases hs : s = sid
  · subst hs
    unfold load_memory interactions_of
    cases hb : bank.lookup s with
    | some m => simp [hb]
    | none => simp [hb, lookup_pyUpsert_self, init_memory]
  · unfold interactions_of
    rw [load_memory_lookup_other bank sid now s hs]

theorem mb_add_interaction_eq (bank : MemoryCache) (sid q r i now : String) :
    mb_add_interaction bank sid q r i now
      = pyUpsert sid
          (add_interaction (load_memory bank sid now).1 q r i now)
          (load_memory bank sid now).2 := rfl

theorem mb_add_interaction_lookup_other (bank : MemoryCache) (sid q r i now s : String)
    (h : s ≠ sid) :
    (mb_add_interaction bank sid q r i now).lookup s = bank.lookup s := by
  rw [mb_add_interaction_eq, lookup_pyUpsert_ne _ _ _ _ h]
  exact load_memory_lookup_other bank sid now s h

theorem get_student_context_bank (bank : MemoryCache) (sid now : String) :
    (get_student_context bank sid now).2 = (load_memory bank sid now).2 := rfl

theorem update_session_lookup_other (mgr : SessionManager) (sess u a now s : String)
    (h : s ≠ sess) :
    ((update_session mgr sess u a now).1).sessions.lookup s = mgr.sessions.lookup s := by
  unfold update_session
  cases hm : mgr.sessions.lookup sess with
  | none => simp [hm]
  | some ses => simp [hm, lookup_pyUpsert_ne _ _ _ _ h]

/-- **C6, amended**: a successful `route_query` performs exactly one
`add_interaction` for the given student (the memory store becomes that one
update of the post-read store; every other student's record is untouched)
and exactly one `update_session` for the given session (every other
session is untouched; `update_session` on an unknown id is a no-op).  A
`route_query` that fails out of plan execution — whether or not the quota
fallback then produces text — performs neither: the session store is
unchanged and no student's interaction log changes; the only memory-store
change possible is the read path's creation-on-first-access of a missing
record with an empty log. -/
theorem route_mutation_discipline (env : RouteEnv) (st : SysState)
    (query student_id session_id : String) (clk : Clock) :
    (∀ r, execute_plan env (determine_intent env.intent_llm) query student_id
        = Except.ok r →
      (route_query env st query student_id session_id clk).1.memory
        = mb_add_interaction (get_student_context st.memory student_id clk.now).2
            student_id query r (determine_intent env.intent_llm) clk.now
      ∧ (route_query env st query student_id session_id clk).1.sessions
        = (update_session st.sessions session_id query r clk.now).1
      ∧ (∀ s, s ≠ student_id →
          (route_query env st query student_id session_id clk).1.memory.lookup s
            = st.memory.lookup s)
      ∧ (∀ s, s ≠ session_id →
          ((route_query env st query student_id session_id clk).1.sessions).sessions.lookup s
            = st.sessions.sessions.lookup s))
    ∧ (∀ e, execute_plan env (determine_intent env.intent_llm) query student_id
        = Except.error e →
      (route_query env st query student_id session_id clk).1.sessions = st.sessions
      ∧ (∀ s, interactions_of (route_query env st query student_id session_id clk).1.memory s
          = interactions_of st.memory s)
      ∧ (∀ s, s ≠ student_id →
          (route_query env st query student_id session_id clk).1.memory.lookup s
            = st.memory.lookup s)) := by
  constructor
  · intro r h
    rw [route_query_ok env st query student_id session_id clk r h]
    refine ⟨rfl, rfl, ?_, ?_⟩
    · intro s hs
      show (mb_add_interaction (get_student_context st.memory student_id clk.now).2
          student_id query r (determine_intent env.intent_llm) clk.now).lookup s
          = st.memory.lookup s
      rw [mb_add_interaction_lookup_other _ _ _ _ _ _ _ hs, get_student_context_bank]
      exact load_memory_lookup_other st.memory student_id clk.now s hs
    · intro s hs
      exact update_session_lookup_other st.sessions session_id query r clk.now s hs
  · intro e h
    rw [route_query_err env st query student_id session_id clk e h]
    refine ⟨rfl, ?_, ?_⟩
    · intro s
      show interactions_of (get_student_context st.memory student_id clk.now).2 s
          = interactions_of st.memory s
      rw [get_student_context_bank]
      exact interactions_of_load st.memory student_id clk.now s
    · intro s hs
      show ((get_student_context st.memory student_id clk.now).2).lookup s
          = st.memory.lookup s
      rw [get_student_context_bank]
      exact load_memory_lookup_other st.memory student_id clk.now s hs

/-- An environment whose plan execution raises a quota error with no
retry clause; the query used with it below finds no knowledge-base fact,
so the route's fallback is attempted and exhausted. -/
def envPlanFails : RouteEnv :=
  { intent_llm := Except.ok "general",
    explain := fun _ _ => Except.ok "EXPLAINED",
    teach := fun _ _ _ => Except.error "RESOURCE_EXHAUSTED",
    generate_quiz := fun _ _ _ => Except.ok "QUIZ",
    analyze_progress := fun _ => Except.ok "PROGRESS",
    retry_parse := fun _ => none }

/-- **C6, counterexample**: a `route_query` that fails out of plan
execution with a quota error and exhausts the fallback (the knowledge
lookup on `"hi"` finds nothing, so the generic unavailable message is
returned) does *not* leave the Memory Store untouched for a previously
unseen student: the context read initializes and saves a fresh record, so
the store differs before and after. -/
theorem route_failed_still_touches_memory_store :
    execute_plan envPlanFails (determine_intent envPlanFails.intent_llm) "hi" "s1"
      = Except.error "RESOURCE_EXHAUSTED"
    ∧ retrieve_facts "hi" 5 = []
    ∧ (route_query envPlanFails ⟨[], SessionManager.init, ObservabilityManager.init⟩
        "hi" "s1" "sess1" ⟨0, 1, 2, "t"⟩).2 = quota_generic_response
    ∧ (route_query envPlanFails ⟨[], SessionManager.init, ObservabilityManager.init⟩
        "hi" "s1" "sess1" ⟨0, 1, 2, "t"⟩).1.memory
      ≠ (⟨[], SessionManager.init, ObservabilityManager.init⟩ : SysState).memory := by
  refine ⟨rfl, by decide, rfl, ?_⟩
  intro h
  have := congrArg List.length h
  revert this
  decide

theorem route_mutation_discipline_w :
    (route_query envPlanFails ⟨[], SessionManager.init, ObservabilityManager.init⟩
      "hi" "s1" "sess1" ⟨0, 1, 2, "t"⟩).1.sessions = SessionManager.init :=
  ((route_mutation_discipline envPlanFails
      ⟨[], SessionManager.init, ObservabilityManager.init⟩
      "hi" "s1" "sess1" ⟨0, 1, 2, "t"⟩).2 "RESOURCE_EXHAUSTED" rfl).1
